import Mathlib

/-!
Shallow embedding of the layer-effects / zoom-viewport core of the
bitmappery image editor (src/services/render-service.js, the
ZoomableCanvas subclass, and EffectFactory), together with theorems
settling the specification claims about it.

Numbers are modelled exactly (as rationals); where a computed quantity
can be JavaScript NaN or Infinity (division by zero inside
setDocumentScale) a dedicated JSNum type mirrors the IEEE special
values and the JavaScript truthiness rules the source relies on.
-/

/-- Truncation toward zero of a rational, as used by the JavaScript
remainder operator. -/
def ratTrunc (q : ℚ) : ℤ :=
  if 0 ≤ q then ⌊q⌋ else ⌈q⌉

/-- JavaScript remainder operator a % b (sign of the dividend, computed
with truncated division), restricted to a nonzero modulus. -/
def jsModQ (a b : ℚ) : ℚ :=
  a - b * ratTrunc (a / b)

/- ---------------------------------------------------------------
   EffectFactory (layer Effects and their serialized storage form)
   --------------------------------------------------------------- -/

/-- Effects record of a layer: rotation (radians), mirrorX, mirrorY.
Mirrors the object literal produced by EffectFactory.create. -/
structure Effects where
  rotation : ℚ
  mirrorX : Bool
  mirrorY : Bool
deriving DecidableEq, Repr

/-- Simplified JSON structure used for project storage of Effects:
fields r, x, y as written by EffectFactory.serialize. -/
structure SerializedEffects where
  r : ℚ
  x : Bool
  y : Bool
deriving DecidableEq, Repr

namespace EffectFactory

/-- EffectFactory.create: builds an Effects record from the given
rotation / mirrorX / mirrorY values. -/
def create (rotation : ℚ) (mirrorX : Bool) (mirrorY : Bool) : Effects :=
  { rotation := rotation, mirrorX := mirrorX, mirrorY := mirrorY }

/-- EffectFactory.serialize: saves effects properties into the
simplified storage structure with fields r, x, y. -/
def serialize (effects : Effects) : SerializedEffects :=
  { r := effects.rotation, x := effects.mirrorX, y := effects.mirrorY }

/-- EffectFactory.deserialize: reconstructs an Effects record from the
stored structure via EffectFactory.create. -/
def deserialize (effects : SerializedEffects) : Effects :=
  create effects.r effects.x effects.y

end EffectFactory

/- ---------------------------------------------------------------
   Pixel Filter Engine (renderFilters, hasFilters)
   --------------------------------------------------------------- -/

/-- Filters record of a layer: raw levels and contrast values. -/
structure Filters where
  levels : ℚ
  contrast : ℚ
deriving DecidableEq, Repr

/-- One RGBA pixel of an ImageData buffer (the flat Uint8ClampedArray of
the source, read 4 bytes per pixel at index (y * width + x) * 4, is
modelled as a list of such pixels). -/
structure Pixel where
  r : ℚ
  g : ℚ
  b : ℚ
  a : ℚ
deriving DecidableEq, Repr

/-- Contrast factor computed at the top of renderFilters:
Math.pow(((filters.contrast * 100) + 100) / 100, 2). -/
def contrastFactor (c : ℚ) : ℚ :=
  (((c * 100) + 100) / 100) ^ 2

/-- Levels value computed at the top of renderFilters:
filters.levels * 2 (0 to 2 range). -/
def scaledLevels (l : ℚ) : ℚ :=
  l * 2

/-- Per-channel levels adjustment in renderFilters:
data[i] = data[i] * levels * levels. -/
def levelsFormula (chan levels : ℚ) : ℚ :=
  chan * levels * levels

/-- Per-channel contrast adjustment in renderFilters:
data[i] = ((data[i] / MAX_8BIT - HALF) * contrast + HALF) * MAX_8BIT
with MAX_8BIT = 255 and HALF = 0.5. -/
def contrastFormula (chan contrast : ℚ) : ℚ :=
  ((chan / 255 - (1 / 2)) * contrast + (1 / 2)) * 255

/-- Body of the per-pixel loop of renderFilters: the levels branch runs
when the scaled levels value is truthy (nonzero), then the contrast
branch runs when the contrast factor is truthy (nonzero); the alpha
channel is left unchanged by both. -/
def filterPixel (filters : Filters) (p : Pixel) : Pixel :=
  let levels := scaledLevels filters.levels
  let contrast := contrastFactor filters.contrast
  let p1 :=
    if levels ≠ 0 then
      { p with r := levelsFormula p.r levels
               g := levelsFormula p.g levels
               b := levelsFormula p.b levels }
    else p
  if contrast ≠ 0 then
    { p1 with r := contrastFormula p1.r contrast
              g := contrastFormula p1.g contrast
              b := contrastFormula p1.b contrast }
  else p1

/-- renderFilters: applies the per-pixel levels / contrast adjustment to
every pixel of the buffer (the x/y loops of the source visit every pixel
of the width * height ImageData exactly once). -/
def renderFilters (filters : Filters) (data : List Pixel) : List Pixel :=
  data.map (filterPixel filters)

/-- hasFilters: truthiness of filters.levels || filters.contrast. -/
def hasFilters (filters : Filters) : Bool :=
  decide (filters.levels ≠ 0) || decide (filters.contrast ≠ 0)

/-- Filter stage of renderEffectsForLayer: renderFilters runs only when
hasFilters is truthy, otherwise the buffer is left untouched. -/
def applyFilters (filters : Filters) (data : List Pixel) : List Pixel :=
  if hasFilters filters then renderFilters filters data else data

/- ---------------------------------------------------------------
   Transform Renderer (renderTransformedSource, renderMask)
   --------------------------------------------------------------- -/

/-- Pixel surface (an HTMLCanvasElement and its backing pixel data). -/
structure Surface where
  width : ℚ
  height : ℚ
  data : List Pixel
deriving DecidableEq, Repr

/-- Rectangle argument of the rotation-pivot geometry helper. -/
structure RectQ where
  left : ℚ
  top : ℚ
  width : ℚ
  height : ℚ
deriving DecidableEq, Repr

/-- Modelled from the spec: getRotationCenter, the geometry helper from
the image-math utility module (imported by render-service.js but not
part of the excerpted sources), computing the rotation pivot of a
rectangle — its center point. -/
def getRotationCenter (r : RectQ) : ℚ × ℚ :=
  (r.left + r.width / 2, r.top + r.height / 2)

/-- Drawing-context operation issued by the Transform Renderer. The
drawSource operation draws the layer source bitmap at the given target
offset, drawMask draws the layer mask bitmap. -/
inductive CanvasOp where
  | save
  | restore
  | opScale (x y : ℚ)
  | translate (x y : ℚ)
  | opRotate (angle : ℚ)
  | drawSource (x y : ℚ)
  | drawMask (x y : ℚ)
  | setCompositeDestIn
deriving DecidableEq, Repr

/-- Text descriptor of a text layer: value, font family, size, color,
optional explicit line height (0 meaning unset) and letter spacing. -/
structure TextDescriptor where
  value : String
  font : String
  size : ℚ
  color : String
  lineHeight : ℚ
  spacing : ℚ
deriving DecidableEq, Repr

/-- Layer type tag (bitmap or text). -/
inductive LayerType where
  | bitmap
  | text
deriving DecidableEq, Repr

/-- Layer record with the fields the effects pipeline reads. -/
structure Layer where
  type : LayerType
  width : ℚ
  height : ℚ
  source : Option Surface
  mask : Option Surface
  maskX : ℚ
  maskY : ℚ
  effects : Effects
  filters : Filters
  text : TextDescriptor
deriving DecidableEq, Repr

/-- renderMask: when the layer has a mask, saves the context, translates
by the draw target offset, switches to destination-in compositing, draws
the mask at (maskX, maskY) and restores; otherwise does nothing. -/
def renderMask (layer : Layer) (tX tY : ℚ) : List CanvasOp :=
  match layer.mask with
  | none => []
  | some _ =>
      [CanvasOp.save, CanvasOp.translate tX tY, CanvasOp.setCompositeDestIn,
       CanvasOp.drawMask layer.maskX layer.maskY, CanvasOp.restore]

/-- renderTransformedSource: the operations issued on the destination
context. The rotate flag is the truthiness of (rotation % 360) !== 0;
mirroring scales by -1 per mirrored axis and shifts the draw origin by
the negated dimension; when rotating, the pivot of the (possibly
mirror-adjusted) bounding box is computed, the context is translated to
it, rotated, translated back, and the draw target offset becomes
pivot - (layer.width, layer.height) * 0.5; the mask (if any) is drawn
before the context state is restored. -/
def renderTransformedSource (layer : Layer) (width height : ℚ) (e : Effects) :
    List CanvasOp :=
  let rotate := jsModQ e.rotation 360 ≠ 0
  let targetX : ℚ := if e.mirrorX then -width else 0
  let targetY : ℚ := if e.mirrorY then -height else 0
  let xScale : ℚ := if e.mirrorX then -1 else 1
  let yScale : ℚ := if e.mirrorY then -1 else 1
  if rotate then
    let c := getRotationCenter
      { left := 0, top := 0,
        width := if e.mirrorX then -width else width,
        height := if e.mirrorY then -height else height }
    let tX := c.1 - layer.width * (1 / 2)
    let tY := c.2 - layer.height * (1 / 2)
    [CanvasOp.save, CanvasOp.opScale xScale yScale,
     CanvasOp.translate c.1 c.2, CanvasOp.opRotate e.rotation,
     CanvasOp.translate (-c.1) (-c.2),
     CanvasOp.drawSource tX tY] ++ renderMask layer tX tY ++ [CanvasOp.restore]
  else
    [CanvasOp.save, CanvasOp.opScale xScale yScale,
     CanvasOp.drawSource targetX targetY] ++
      renderMask layer targetX targetY ++ [CanvasOp.restore]

/-- Test for a rotation operation among the issued context operations. -/
def hasRotateOp (ops : List CanvasOp) : Bool :=
  ops.any fun op =>
    match op with
    | CanvasOp.opRotate _ => true
    | _ => false

/- ---------------------------------------------------------------
   Text rasterization (renderText)
   --------------------------------------------------------------- -/

/-- Operation issued on the text layer's source-surface context while
rasterizing text. -/
inductive TextOp where
  | clearRect (x y w h : ℚ)
  | setFont (size : ℚ) (font : String)
  | setFillStyle (color : String)
  | fillText (s : String) (x y : ℚ)
deriving DecidableEq, Repr

/-- Result of a renderText run: the fonts requested from the font
service, the context operations issued on the source surface, and the
source surface afterwards. -/
structure TextRenderResult where
  fontRequests : List String
  ops : List TextOp
  source : Surface
deriving Repr

/-- renderText: returns immediately when text.value is falsy (empty);
otherwise requests the font (falling back to Arial when loading fails),
clears the source surface, sets font and fill style, and draws each
newline-separated line at baseline lineHeight * (lineIndex + 1) — as a
single run when letter spacing is falsy (zero), else letter by letter at
x = letterIndex * spacing. The line height defaults to
size + |descent metric| when the descriptor's own lineHeight is falsy.
The external 2D-context semantics is the raster parameter folding the
issued operations over the surface; the measured descent of the
reference glyph pair and the success of the font load are likewise
external inputs. -/
def renderText (raster : Surface → TextOp → Surface) (fontLoadOk : Bool)
    (descent : ℚ) (src : Surface) (text : TextDescriptor) : TextRenderResult :=
  if text.value = "" then
    { fontRequests := [], ops := [], source := src }
  else
    let font := if fontLoadOk then text.font else "Arial"
    let lineHeight := if text.lineHeight ≠ 0 then text.lineHeight
      else text.size + |descent|
    let lines := text.value.splitOn "\n"
    let headerOps := [TextOp.clearRect 0 0 src.width src.height,
      TextOp.setFont text.size font, TextOp.setFillStyle text.color]
    let lineOps := lines.enum.flatMap fun p =>
      let y := lineHeight + (p.1 : ℚ) * lineHeight
      if text.spacing = 0 then
        [TextOp.fillText p.2 0 y]
      else
        p.2.toList.enum.map fun lp =>
          TextOp.fillText (Char.toString lp.2) ((lp.1 : ℚ) * text.spacing) y
    let ops := headerOps ++ lineOps
    { fontRequests := [text.font], ops := ops, source := ops.foldl raster src }

/- ---------------------------------------------------------------
   Layer Effect Pipeline (renderEffectsForLayer, hasEffects)
   --------------------------------------------------------------- -/

/-- Sprite counterpart of a layer on screen: cached visible bitmap and
its extent, plus the invalidation flag. -/
structure Sprite where
  bitmap : Option Surface
  bitmapWidth : ℚ
  bitmapHeight : ℚ
  invalidated : Bool
deriving DecidableEq, Repr

/-- hasEffects: truthy when the layer has a mask, or rotation is
nonzero, or either mirror flag is set. -/
def hasEffects (layer : Layer) : Bool :=
  layer.mask.isSome || decide (layer.effects.rotation ≠ 0) ||
    layer.effects.mirrorX || layer.effects.mirrorY

/-- renderEffectsForLayer: no-op when the layer has no sprite or no
source; otherwise sizes a working surface to the rotated bounding size,
re-rasterizes text for text layers, draws the source through the
Transform Renderer when hasEffects holds (plain draw at the origin
otherwise), applies the Pixel Filter Engine when hasFilters holds, and
publishes the result as the sprite's bitmap with the rotated extent.
External collaborators are parameters: rotSize is the getRotatedSize
geometry helper, draw the 2D-context semantics realizing a list of
context operations on a surface, raster / fontLoadOk / descent as in
renderText. Returns the layer and sprite afterwards. -/
def renderEffectsForLayer (rotSize : ℚ → ℚ → ℚ → ℚ × ℚ)
    (draw : Surface → List CanvasOp → Surface)
    (raster : Surface → TextOp → Surface) (fontLoadOk : Bool) (descent : ℚ)
    (sprite : Option Sprite) (layer : Layer) : Layer × Option Sprite :=
  match sprite, layer.source with
  | some s, some src =>
      let wh := rotSize layer.width layer.height layer.effects.rotation
      let textResult :=
        if layer.type = LayerType.text then
          some (renderText raster fontLoadOk descent src layer.text)
        else none
      let src1 := match textResult with
        | some tr => tr.source
        | none => src
      let layer1 := match textResult with
        | some tr => { layer with source := some tr.source }
        | none => layer
      let cvs : Surface := { width := wh.1, height := wh.2, data := src1.data }
      let ops :=
        if hasEffects layer1 then
          renderTransformedSource layer1 wh.1 wh.2 layer1.effects
        else
          [CanvasOp.drawSource 0 0]
      let cvs1 := draw cvs ops
      let cvs2 :=
        if hasFilters layer1.filters then
          { cvs1 with data := renderFilters layer1.filters cvs1.data }
        else cvs1
      (layer1,
       some { s with bitmap := some cvs2, bitmapWidth := wh.1,
                     bitmapHeight := wh.2, invalidated := true })
  | _, _ => (layer, sprite)

/- ---------------------------------------------------------------
   Viewport / Zoom Controller (ZoomableCanvas)
   --------------------------------------------------------------- -/

/-- JavaScript double restricted to the values arising in
setDocumentScale: an exact (rational) number, NaN, or a signed
infinity. -/
inductive JSNum where
  | num (q : ℚ)
  | nan
  | posInf
  | negInf
deriving DecidableEq, Repr

/-- JavaScript truthiness of a number: zero and NaN are falsy,
everything else (infinities included) is truthy. -/
def JSNum.truthy : JSNum → Bool
  | JSNum.num q => decide (q ≠ 0)
  | JSNum.nan => false
  | JSNum.posInf => true
  | JSNum.negInf => true

/-- JavaScript logical-or a || b on numbers: a when truthy, else b. -/
def jsOr (a b : JSNum) : JSNum :=
  if a.truthy then a else b

/-- JavaScript division on numbers (positive-zero divisor semantics:
x / 0 is NaN for x = 0 and a signed infinity otherwise). -/
def jsDiv : JSNum → JSNum → JSNum
  | JSNum.nan, _ => JSNum.nan
  | _, JSNum.nan => JSNum.nan
  | JSNum.num a, JSNum.num b =>
      if b ≠ 0 then JSNum.num (a / b)
      else if a > 0 then JSNum.posInf
      else if a < 0 then JSNum.negInf
      else JSNum.nan
  | JSNum.num _, JSNum.posInf => JSNum.num 0
  | JSNum.num _, JSNum.negInf => JSNum.num 0
  | JSNum.posInf, JSNum.num b => if b < 0 then JSNum.negInf else JSNum.posInf
  | JSNum.negInf, JSNum.num b => if b < 0 then JSNum.posInf else JSNum.negInf
  | JSNum.posInf, JSNum.posInf => JSNum.nan
  | JSNum.posInf, JSNum.negInf => JSNum.nan
  | JSNum.negInf, JSNum.posInf => JSNum.nan
  | JSNum.negInf, JSNum.negInf => JSNum.nan

/-- JavaScript multiplication on numbers (infinity times zero is NaN). -/
def jsMul : JSNum → JSNum → JSNum
  | JSNum.nan, _ => JSNum.nan
  | _, JSNum.nan => JSNum.nan
  | JSNum.num a, JSNum.num b => JSNum.num (a * b)
  | JSNum.posInf, JSNum.num b =>
      if b > 0 then JSNum.posInf else if b < 0 then JSNum.negInf else JSNum.nan
  | JSNum.num a, JSNum.posInf =>
      if a > 0 then JSNum.posInf else if a < 0 then JSNum.negInf else JSNum.nan
  | JSNum.negInf, JSNum.num b =>
      if b > 0 then JSNum.negInf else if b < 0 then JSNum.posInf else JSNum.nan
  | JSNum.num a, JSNum.negInf =>
      if a > 0 then JSNum.negInf else if a < 0 then JSNum.posInf else JSNum.nan
  | JSNum.posInf, JSNum.posInf => JSNum.posInf
  | JSNum.posInf, JSNum.negInf => JSNum.negInf
  | JSNum.negInf, JSNum.posInf => JSNum.negInf
  | JSNum.negInf, JSNum.negInf => JSNum.posInf

/-- Viewport of the zoomable canvas: a scroll window in scaled on-screen
pixel units. -/
structure Viewport where
  left : ℚ
  top : ℚ
  width : ℚ
  height : ℚ
deriving DecidableEq, Repr

/-- State of the ZoomableCanvas read and written by setDocumentScale:
the canvas dimensions, the viewport, the zoom factor and the document
scale. -/
structure ZoomState where
  width : ℚ
  height : ℚ
  viewport : Viewport
  zoomFactor : ℚ
  documentScale : ℚ
deriving DecidableEq, Repr

/-- Result of setDocumentScale: the canvas state after setDimensions /
setZoomFactor / documentScale update, and the pan target passed to
panViewport (which may be a JavaScript special value when a scroll ratio
degenerated). -/
structure DocumentScaleResult where
  state : ZoomState
  panX : JSNum
  panY : JSNum
deriving DecidableEq, Repr

/-- setDocumentScale: caches scroll ratios (left / scrollWidth) || 0.5
and (top / scrollHeight) || 0.5 from the pre-resize state, resizes the
canvas to the target dimensions, sets the zoom factor to scale * zoom,
recomputes the scroll extents at the new size and pans the viewport to
(newScrollWidth * ratioX, newScrollHeight * ratioY); when an active
document is bound, documentScale becomes document.width / canvas
width. -/
def setDocumentScale (st : ZoomState) (targetWidth targetHeight scale zoom : ℚ)
    (activeDocumentWidth : Option ℚ) : DocumentScaleResult :=
  let left := st.viewport.left
  let top := st.viewport.top
  let scrollWidth := st.width - st.viewport.width
  let scrollHeight := st.height - st.viewport.height
  let ratioX := jsOr (jsDiv (JSNum.num left) (JSNum.num scrollWidth))
    (JSNum.num (1 / 2))
  let ratioY := jsOr (jsDiv (JSNum.num top) (JSNum.num scrollHeight))
    (JSNum.num (1 / 2))
  let st1 := { st with width := targetWidth, height := targetHeight,
                       zoomFactor := scale * zoom }
  let scrollWidth2 := st1.width - st1.viewport.width
  let scrollHeight2 := st1.height - st1.viewport.height
  let panX := jsMul (JSNum.num scrollWidth2) ratioX
  let panY := jsMul (JSNum.num scrollHeight2) ratioY
  let st2 := match activeDocumentWidth with
    | some dw => { st1 with documentScale := dw / st1.width }
    | none => st1
  { state := st2, panX := panX, panY := panY }

/- ---------------------------------------------------------------
   Input translation (ZoomableCanvas.handleInteraction)
   --------------------------------------------------------------- -/

/-- Child sprite of the canvas, reduced to its handleInteraction
callback: given the translated coordinates it reports whether it handled
the event. -/
structure Child where
  handler : ℚ → ℚ → Bool

/-- Kind of DOM event dispatched to handleInteraction; every kind other
than the mouse and wheel ones takes the default (touch) branch. -/
inductive EventKind where
  | touch
  | mousedown
  | mousemove
  | mouseup
  | wheel
deriving DecidableEq, Repr

/-- Input event as read by handleInteraction: offsetX / offsetY for
mouse events, the page coordinates of touches and changedTouches for
touch events, deltaX / deltaY for wheel events. -/
structure InputEvent where
  kind : EventKind
  offsetX : ℚ
  offsetY : ℚ
  touches : List (ℚ × ℚ)
  changedTouches : List (ℚ × ℚ)
  deltaX : ℚ
  deltaY : ℚ

/-- Canvas state read by handleInteraction: the children (in z-order,
first is bottom-most), the viewport, the zoom factor, and the canvas
screen-space coordinate returned by getCoordinate(). -/
structure InteractionCanvas where
  children : List Child
  viewport : Viewport
  zoomFactor : ℚ
  coordinate : ℚ × ℚ

/-- Result of one handleInteraction dispatch: the (child index, x, y)
calls made in visit order (indices are positions in the z-ordered
children list), and the pan target passed to panViewport for wheel
events. -/
structure InteractionResult where
  dispatched : List (ℕ × ℚ × ℚ)
  panX : Option ℚ
  panY : Option ℚ
deriving DecidableEq, Repr

/-- Mouse-branch dispatch loop: visits the given (already reversed)
indexed children in order and breaks as soon as a handler returns a
truthy result; the handling child is the last one visited. -/
def mouseDispatch (cs : List (ℕ × Child)) (x y : ℚ) : List (ℕ × ℚ × ℚ) :=
  match cs with
  | [] => []
  | c :: rest =>
      (c.1, x, y) :: (if c.2.handler x y then [] else mouseDispatch rest x y)

/-- Translated x coordinate of the mouse branch:
(event.offsetX + viewport.left) / zoomFactor. -/
def translateMouseX (cv : InteractionCanvas) (e : InputEvent) : ℚ :=
  (e.offsetX + cv.viewport.left) / cv.zoomFactor

/-- Translated y coordinate of the mouse branch:
(event.offsetY + viewport.top) / zoomFactor. -/
def translateMouseY (cv : InteractionCanvas) (e : InputEvent) : ℚ :=
  (e.offsetY + cv.viewport.top) / cv.zoomFactor

/-- handleInteraction: with no children nothing is dispatched; touch
events translate the first touch's page coordinate by the canvas screen
offset (adjusted by the viewport offset) and the zoom factor, then visit
every child from the top-most down without breaking; mouse events add
the viewport offset to the event offset, divide by the zoom factor and
visit children top-most first, stopping at the first child whose handler
reports the event handled; wheel events pan the viewport by a fixed
20-pixel step per axis in the direction of the wheel delta sign. -/
def handleInteraction (cv : InteractionCanvas) (e : InputEvent) :
    InteractionResult :=
  if cv.children.length = 0 then
    { dispatched := [], panX := none, panY := none }
  else
    match e.kind with
    | EventKind.mousedown | EventKind.mousemove | EventKind.mouseup =>
        let x := translateMouseX cv e
        let y := translateMouseY cv e
        { dispatched := mouseDispatch cv.children.enum.reverse x y,
          panX := none, panY := none }
    | EventKind.wheel =>
        let wheelSpeed : ℚ := 20
        let xSpeed := if e.deltaX = 0 then 0
          else if e.deltaX > 0 then wheelSpeed else -wheelSpeed
        let ySpeed := if e.deltaY = 0 then 0
          else if e.deltaY > 0 then wheelSpeed else -wheelSpeed
        { dispatched := [],
          panX := some (cv.viewport.left + xSpeed),
          panY := some (cv.viewport.top + ySpeed) }
    | EventKind.touch =>
        let touches := if e.touches.length > 0 then e.touches
          else e.changedTouches
        let exy : ℚ × ℚ :=
          match touches with
          | [] => (0, 0)
          | t :: _ =>
              let ox := cv.coordinate.1 - cv.viewport.left
              let oy := cv.coordinate.2 - cv.viewport.top
              ((t.1 - ox) / cv.zoomFactor, (t.2 - oy) / cv.zoomFactor)
        { dispatched :=
            cv.children.enum.reverse.map fun c => (c.1, exy.1, exy.2),
          panX := none, panY := none }

/- ---------------------------------------------------------------
   Specification-side definitions (claim language, for comparison)
   --------------------------------------------------------------- -/

/-- Claim-side notion of a rotation that is an exact multiple of one
full turn of 2 * pi radians. -/
def specFullTurnMultiple (rotation : ℚ) : Prop :=
  ∃ k : ℤ, (rotation : ℝ) = 2 * Real.pi * (k : ℝ)

/-- Claim-side mirror-adjusted bounding box: the box whose width /
height are negated on each mirrored axis. -/
def specMirrorAdjustedBox (width height : ℚ) (e : Effects) : RectQ :=
  { left := 0, top := 0,
    width := if e.mirrorX then -width else width,
    height := if e.mirrorY then -height else height }

/-- Claim-side rotation path: translate to the rotation pivot of the
mirror-adjusted bounding box, rotate, translate back, and draw the
source at pivot minus half the layer's width / height, followed by the
mask compositing and the context restore. -/
def specRotationPathOps (layer : Layer) (width height : ℚ) (e : Effects) :
    List CanvasOp :=
  let pivot := getRotationCenter (specMirrorAdjustedBox width height e)
  let offX := pivot.1 - layer.width / 2
  let offY := pivot.2 - layer.height / 2
  [CanvasOp.save,
   CanvasOp.opScale (if e.mirrorX then -1 else 1) (if e.mirrorY then -1 else 1),
   CanvasOp.translate pivot.1 pivot.2,
   CanvasOp.opRotate e.rotation,
   CanvasOp.translate (-pivot.1) (-pivot.2),
   CanvasOp.drawSource offX offY] ++ renderMask layer offX offY ++
    [CanvasOp.restore]

/-- Claim-side non-rotated path: the source is drawn with no rotation
transform, only the mirror scale and the mirror-shifted draw origin. -/
def specPlainPathOps (layer : Layer) (width height : ℚ) (e : Effects) :
    List CanvasOp :=
  let offX : ℚ := if e.mirrorX then -width else 0
  let offY : ℚ := if e.mirrorY then -height else 0
  [CanvasOp.save,
   CanvasOp.opScale (if e.mirrorX then -1 else 1) (if e.mirrorY then -1 else 1),
   CanvasOp.drawSource offX offY] ++ renderMask layer offX offY ++
    [CanvasOp.restore]

/-- Negation of a child handler's verdict at the given coordinates. -/
def notHandled (x y : ℚ) (c : ℕ × Child) : Bool :=
  !(c.2.handler x y)

/-- Claim-side visit order for mouse dispatch: the children before the
first one that handles the event, followed by that first handling child
when it exists. -/
def specVisitsUntilHandled (cs : List (ℕ × Child)) (x y : ℚ) :
    List (ℕ × Child) :=
  let front := cs.takeWhile (notHandled x y)
  front ++ (cs.drop front.length).take 1

/- ---------------------------------------------------------------
   Concrete fixtures used by counterexamples and witnesses
   --------------------------------------------------------------- -/

/-- Pixel with red channel 100, used by the filter examples. -/
def pixel100 : Pixel :=
  { r := 100, g := 0, b := 0, a := 255 }

/-- Concrete 100 by 100 surface holding one pixel record. -/
def exampleSurface : Surface :=
  { width := 100, height := 100, data := [pixel100] }

/-- Concrete text descriptor with an empty value. -/
def exampleText : TextDescriptor :=
  { value := "", font := "Helvetica", size := 12, color := "red",
    lineHeight := 0, spacing := 0 }

/-- Concrete bitmap layer with no mask and neutral effects / filters. -/
def exampleLayer : Layer :=
  { type := LayerType.bitmap, width := 100, height := 100,
    source := some exampleSurface, mask := none, maskX := 0, maskY := 0,
    effects := { rotation := 0, mirrorX := false, mirrorY := false },
    filters := { levels := 0, contrast := 0 }, text := exampleText }

/-- Concrete zoom state: 150 by 150 canvas, 50 by 50 unscrolled
viewport. -/
def exampleZoomState : ZoomState :=
  { width := 150, height := 150,
    viewport := { left := 0, top := 0, width := 50, height := 50 },
    zoomFactor := 1, documentScale := 1 }

/-- Concrete scrolled zoom state for the C3 witness: viewport.left = 10
with scroll range 100. -/
def exampleZoomStateScrolled : ZoomState :=
  { width := 150, height := 150,
    viewport := { left := 10, top := 0, width := 50, height := 50 },
    zoomFactor := 1, documentScale := 1 }

/-- Child whose handler always reports the event handled. -/
def childHandlesAll : Child :=
  { handler := fun _ _ => true }

/-- Concrete canvas with two children for the interaction examples. -/
def exampleInteractionCanvas : InteractionCanvas :=
  { children := [childHandlesAll, childHandlesAll],
    viewport := { left := 0, top := 0, width := 50, height := 50 },
    zoomFactor := 1, coordinate := (0, 0) }

/-- Concrete mouse event at offset (12, 34). -/
def exampleMouseEvent : InputEvent :=
  { kind := EventKind.mousedown, offsetX := 12, offsetY := 34,
    touches := [], changedTouches := [], deltaX := 0, deltaY := 0 }

/-- Concrete two-finger touch event with touches at page coordinates
(10, 20) and (50, 60). -/
def exampleTouchEvent : InputEvent :=
  { kind := EventKind.touch, offsetX := 0, offsetY := 0,
    touches := [(10, 20), (50, 60)], changedTouches := [],
    deltaX := 0, deltaY := 0 }

/- ---------------------------------------------------------------
   Theorems
   --------------------------------------------------------------- -/

/-- C6: for every Effects record e, deserialize (serialize e) equals e
on rotation, mirrorX and mirrorY — the round trip through the storage
form with fields r, x, y is lossless. -/
theorem effects_serialize_roundtrip (e : Effects) :
    EffectFactory.deserialize (EffectFactory.serialize e) = e :=
  rfl

/-- C4: running the filter stage with levels = 0 and contrast = 0 leaves
every pixel of the buffer byte-identical: hasFilters is falsy, so
renderFilters never runs. -/
theorem filters_noop_law (data : List Pixel) :
    applyFilters { levels := 0, contrast := 0 } data = data := by
  simp [applyFilters, hasFilters]

/-- C5: for raw levels 1 (scaled internally to 2) and contrast 0, each
channel is multiplied by the square of the scaled levels value — input
100 yields 100 * 2 * 2 = 400 — and the filter arithmetic imposes no
clamp of the result to the 0..255 range (the result exceeds 255). -/
theorem filters_levels_unclamped :
    scaledLevels 1 = 2 ∧
    (∀ p : Pixel,
      (filterPixel { levels := 1, contrast := 0 } p).r = p.r * 2 * 2) ∧
    (filterPixel { levels := 1, contrast := 0 } pixel100).r = 100 * 2 * 2 ∧
    255 < (filterPixel { levels := 1, contrast := 0 } pixel100).r := by
  have key : ∀ p : Pixel,
      (filterPixel { levels := 1, contrast := 0 } p).r = p.r * 2 * 2 := by
    intro p
    norm_num [filterPixel, scaledLevels, contrastFactor, levelsFormula,
      contrastFormula]
  refine ⟨by norm_num [scaledLevels], key, ?_, ?_⟩
  · rw [key]
    norm_num [pixel100]
  · rw [key]
    norm_num [pixel100]

/-- C2 counterexample: at raw contrast -1 the contrast factor is 0,
which is falsy, so the adjustment is skipped and the buffer is returned
unchanged — although the claimed formula would have moved channel 100
to 127.5. -/
theorem contrast_neg_one_counterexample :
    applyFilters { levels := 0, contrast := -1 } [pixel100] = [pixel100] ∧
    contrastFormula pixel100.r (contrastFactor (-1)) ≠ pixel100.r := by
  constructor
  · norm_num [applyFilters, hasFilters, renderFilters, filterPixel,
      scaledLevels, contrastFactor, pixel100]
  · norm_num [contrastFormula, contrastFactor, pixel100]

/-- C2 amended: for every nonzero raw contrast other than -1 the filter
stage maps each pixel's R, G, B channels through the contrast formula
with factor ((contrast * 100 + 100) / 100) ^ 2 and leaves alpha
unchanged; at raw contrast -1 the factor degenerates to 0 and the
buffer is left unchanged. -/
theorem contrast_applied_iff (c : ℚ) (data : List Pixel) (hc0 : c ≠ 0)
    (hc1 : c ≠ -1) :
    applyFilters { levels := 0, contrast := c } data
      = data.map (fun p =>
          { p with r := contrastFormula p.r (contrastFactor c),
                   g := contrastFormula p.g (contrastFactor c),
                   b := contrastFormula p.b (contrastFactor c) }) ∧
    applyFilters { levels := 0, contrast := -1 } data = data := by
  constructor
  · have hf : contrastFactor c ≠ 0 := by
      unfold contrastFactor
      apply pow_ne_zero
      intro h
      apply hc1
      field_simp at h
      linarith
    simp [applyFilters, hasFilters, hc0, renderFilters, filterPixel,
      scaledLevels, hf]
  · have h0 : contrastFactor (-1) = 0 := by
      norm_num [contrastFactor]
    have hp : ∀ p : Pixel, filterPixel { levels := 0, contrast := -1 } p = p := by
      intro p
      simp [filterPixel, scaledLevels, h0]
    have hfun : filterPixel { levels := 0, contrast := -1 } = id := funext hp
    simp [applyFilters, hasFilters, renderFilters, hfun]

/-- C2 witness: the amended theorem applied at contrast 1 on the
one-pixel buffer. -/
theorem contrast_applied_iff_witness :
    applyFilters { levels := 0, contrast := 1 } [pixel100]
      = [pixel100].map (fun p =>
          { p with r := contrastFormula p.r (contrastFactor 1),
                   g := contrastFormula p.g (contrastFactor 1),
                   b := contrastFormula p.b (contrastFactor 1) }) :=
  (contrast_applied_iff 1 [pixel100] (by norm_num) (by norm_num)).1

/-- C10: when the text descriptor's value is empty (falsy), renderText
returns immediately: no font is requested, no context operation (no
clear, no draw) is issued, and the source surface is returned
byte-for-byte unchanged. -/
theorem text_empty_value_noop (raster : Surface → TextOp → Surface)
    (fontLoadOk : Bool) (descent : ℚ) (src : Surface)
    (text : TextDescriptor) (hv : text.value = "") :
    renderText raster fontLoadOk descent src text
      = { fontRequests := [], ops := [], source := src } := by
  simp [renderText, hv]

/-- C10 witness: the empty-value theorem applied to the concrete empty
text descriptor and surface. -/
theorem text_empty_value_noop_witness :
    renderText (fun s _ => s) true 0 exampleSurface exampleText
      = { fontRequests := [], ops := [], source := exampleSurface } :=
  text_empty_value_noop (fun s _ => s) true 0 exampleSurface exampleText rfl

/-- C9: renderEffectsForLayer leaves the Layer's stored width and height
unchanged (in fact every layer field except the text-rebuilt source is
unchanged); only the sprite's cached bitmap and its extent are
updated. -/
theorem layer_dimensions_preserved (rotSize : ℚ → ℚ → ℚ → ℚ × ℚ)
    (draw : Surface → List CanvasOp → Surface)
    (raster : Surface → TextOp → Surface) (fontLoadOk : Bool) (descent : ℚ)
    (sprite : Option Sprite) (layer : Layer) :
    (renderEffectsForLayer rotSize draw raster fontLoadOk descent
        sprite layer).1.width = layer.width ∧
    (renderEffectsForLayer rotSize draw raster fontLoadOk descent
        sprite layer).1.height = layer.height ∧
    (renderEffectsForLayer rotSize draw raster fontLoadOk descent
        sprite layer).1
      = { layer with
          source := (renderEffectsForLayer rotSize draw raster fontLoadOk
            descent sprite layer).1.source } := by
  unfold renderEffectsForLayer
  match sprite, layer.source with
  | none, _ => simp
  | some s, none => simp
  | some s, some src =>
      simp only []
      split <;> simp


/-- Mask compositing issues no rotation operation. -/
theorem hasRotateOp_renderMask (layer : Layer) (tX tY : ℚ) :
    hasRotateOp (renderMask layer tX tY) = false := by
  unfold renderMask
  cases layer.mask <;> simp [hasRotateOp]

/-- Rotation-operation search distributes over list concatenation. -/
theorem hasRotateOp_append (l1 l2 : List CanvasOp) :
    hasRotateOp (l1 ++ l2) = (hasRotateOp l1 || hasRotateOp l2) := by
  simp [hasRotateOp]

/-- Remainder of 360 modulo 360 is zero. -/
theorem jsModQ_360_360 : jsModQ 360 360 = 0 := by
  norm_num [jsModQ, ratTrunc]

/-- Remainder of 90 modulo 360 is 90. -/
theorem jsModQ_90_360 : jsModQ 90 360 = 90 := by
  norm_num [jsModQ, ratTrunc]

/-- C1 counterexample: at rotation 360 (radians) the source is drawn
with no rotation transform — (360 % 360) is 0, falsy — although 360
radians is not an exact multiple of one full turn of 2 * pi radians, so
the claimed equivalence between the rotation path and a
nonzero-modulo-2-pi rotation fails. -/
theorem rotation_condition_counterexample :
    ¬ (hasRotateOp (renderTransformedSource exampleLayer 100 100
          { rotation := 360, mirrorX := false, mirrorY := false }) = true
        ↔ ¬ specFullTurnMultiple 360) := by
  intro hiff
  have h1 : hasRotateOp (renderTransformedSource exampleLayer 100 100
      { rotation := 360, mirrorX := false, mirrorY := false }) = false := by
    unfold renderTransformedSource
    rw [if_neg (by simp [jsModQ_360_360])]
    rw [hasRotateOp_append, hasRotateOp_append, hasRotateOp_renderMask]
    simp [hasRotateOp]
  have h2 : ¬ specFullTurnMultiple 360 := by
    rintro ⟨k, hk⟩
    have hk2 : (360 : ℝ) = 2 * Real.pi * (k : ℝ) := by
      exact_mod_cast hk
    have hk0 : (k : ℝ) ≠ 0 := by
      intro h0
      rw [h0, mul_zero] at hk2
      norm_num at hk2
    have hpi : Real.pi = ((180 / (k : ℚ) : ℚ) : ℝ) := by
      push_cast
      rw [eq_div_iff hk0]
      linear_combination (-1/2 : ℝ) * hk2
    exact irrational_pi ⟨180 / (k : ℚ), hpi.symm⟩
  rw [h1] at hiff
  exact Bool.false_ne_true (hiff.mpr h2)

/-- C1 amended: the Transform Renderer applies the rotation path
(translate to the pivot of the mirror-adjusted bounding box, rotate,
translate back, draw at pivot minus half the layer dimensions) if and
only if the rotation value modulo 360 — the JavaScript remainder, taken
on the radian value — is nonzero; when that remainder is zero the
source is drawn with no rotation transform; for rotation values of
magnitude below 360 (in particular any rotation normalized modulo one
full turn) the condition coincides with rotation being nonzero. -/
theorem rotation_condition_amended (layer : Layer) (w h : ℚ) (e : Effects) :
    (hasRotateOp (renderTransformedSource layer w h e) = true
      ↔ jsModQ e.rotation 360 ≠ 0) ∧
    (jsModQ e.rotation 360 ≠ 0 →
      renderTransformedSource layer w h e = specRotationPathOps layer w h e) ∧
    (jsModQ e.rotation 360 = 0 →
      renderTransformedSource layer w h e = specPlainPathOps layer w h e) ∧
    (|e.rotation| < 360 → (jsModQ e.rotation 360 ≠ 0 ↔ e.rotation ≠ 0)) := by
  have hnorm : |e.rotation| < 360 →
      (jsModQ e.rotation 360 ≠ 0 ↔ e.rotation ≠ 0) := by
    intro hlt
    rw [abs_lt] at hlt
    have h360 : (0 : ℚ) < 360 := by norm_num
    have htr : ratTrunc (e.rotation / 360) = 0 := by
      unfold ratTrunc
      split
      · rw [Int.floor_eq_zero_iff]
        refine ⟨by assumption, ?_⟩
        rw [div_lt_one h360]
        exact hlt.2
      · rw [Int.ceil_eq_zero_iff]
        constructor
        · rw [lt_div_iff₀ h360]
          linarith [hlt.1]
        · linarith [lt_of_not_le (by assumption : ¬ 0 ≤ e.rotation / 360)]
    unfold jsModQ
    rw [htr]
    push_cast
    constructor <;> intro hx hy <;> apply hx <;> linarith
  by_cases hr : jsModQ e.rotation 360 = 0
  · have hops : renderTransformedSource layer w h e
        = specPlainPathOps layer w h e := by
      unfold renderTransformedSource specPlainPathOps
      rw [if_neg (by simp [hr])]
    have hfalse : hasRotateOp (specPlainPathOps layer w h e) = false := by
      unfold specPlainPathOps
      rw [hasRotateOp_append, hasRotateOp_append, hasRotateOp_renderMask]
      simp [hasRotateOp]
    refine ⟨?_, fun hc => absurd hr hc, fun _ => hops, hnorm⟩
    rw [hops, hfalse]
    simp [hr]
  · have hops : renderTransformedSource layer w h e
        = specRotationPathOps layer w h e := by
      unfold renderTransformedSource specRotationPathOps specMirrorAdjustedBox
      rw [if_pos hr]
      simp [one_div, div_eq_mul_inv]
    have htrue : hasRotateOp (specRotationPathOps layer w h e) = true := by
      unfold specRotationPathOps
      rw [hasRotateOp_append, hasRotateOp_append]
      simp [hasRotateOp]
    refine ⟨?_, fun _ => hops, fun hc => absurd hc hr, hnorm⟩
    rw [hops, htrue]
    simp [hr]

/-- C1 witness: the amended theorem applied at rotation 90 radians,
where the remainder modulo 360 is nonzero. -/
theorem rotation_condition_amended_witness :
    renderTransformedSource exampleLayer 100 100
        { rotation := 90, mirrorX := false, mirrorY := false }
      = specRotationPathOps exampleLayer 100 100
        { rotation := 90, mirrorX := false, mirrorY := false } :=
  (rotation_condition_amended exampleLayer 100 100
    { rotation := 90, mirrorX := false, mirrorY := false }).2.1
    (by simp [jsModQ_90_360])

/-- C3 counterexample: with viewport.left = 0 and a nonzero scroll range
(150 - 50 = 100), the quotient 0 / 100 is falsy, so setDocumentScale
falls back to the centered ratio 0.5 and pans to 100 — not to
newScrollWidth * (left / (oldTotalWidth - viewportWidth)) = 0 as the
claim requires whenever the denominator is nonzero. -/
theorem rescale_ratio_counterexample :
    exampleZoomState.width - exampleZoomState.viewport.width ≠ 0 ∧
    (setDocumentScale exampleZoomState 250 250 1 1 none).panX
      = JSNum.num 100 ∧
    (setDocumentScale exampleZoomState 250 250 1 1 none).panX
      ≠ JSNum.num ((250 - exampleZoomState.viewport.width) *
          (exampleZoomState.viewport.left /
            (exampleZoomState.width - exampleZoomState.viewport.width))) := by
  have hpan : (setDocumentScale exampleZoomState 250 250 1 1 none).panX
      = JSNum.num 100 := by
    norm_num [setDocumentScale, exampleZoomState, jsDiv, jsOr, jsMul,
      JSNum.truthy]
  refine ⟨by norm_num [exampleZoomState], hpan, ?_⟩
  rw [hpan]
  norm_num [exampleZoomState]

/-- C3 amended: setDocumentScale pans to newScrollWidth * ratioX where
ratioX equals left / (oldTotalWidth - viewportWidth) when both the
numerator and the denominator are nonzero, but defaults to 0.5 exactly
when the computed quotient is falsy (0 or NaN) — that is, whenever
viewport.left = 0, including but not limited to the zero-denominator
case; when left is positive and the denominator is zero the ratio is
the infinite quotient and the pan target is infinite, not centered.
Analogously for the vertical axis. -/
theorem rescale_ratio_amended (st : ZoomState) (tw th s z : ℚ)
    (adw : Option ℚ) :
    (st.viewport.left ≠ 0 → st.width - st.viewport.width ≠ 0 →
      (setDocumentScale st tw th s z adw).panX
        = JSNum.num ((tw - st.viewport.width) *
            (st.viewport.left / (st.width - st.viewport.width)))) ∧
    (st.viewport.left = 0 →
      (setDocumentScale st tw th s z adw).panX
        = JSNum.num ((tw - st.viewport.width) * (1 / 2))) ∧
    (st.viewport.top ≠ 0 → st.height - st.viewport.height ≠ 0 →
      (setDocumentScale st tw th s z adw).panY
        = JSNum.num ((th - st.viewport.height) *
            (st.viewport.top / (st.height - st.viewport.height)))) ∧
    (st.viewport.top = 0 →
      (setDocumentScale st tw th s z adw).panY
        = JSNum.num ((th - st.viewport.height) * (1 / 2))) ∧
    (0 < st.viewport.left → st.width - st.viewport.width = 0 →
      0 < tw - st.viewport.width →
      (setDocumentScale st tw th s z adw).panX = JSNum.posInf) := by
  refine ⟨?_, ?_, ?_, ?_, ?_⟩
  · intro hl hsw
    simp [setDocumentScale, jsDiv, jsOr, jsMul, JSNum.truthy, hsw,
      div_ne_zero hl hsw]
  · intro hl0
    by_cases hsw : st.width - st.viewport.width = 0
    · simp [setDocumentScale, jsDiv, jsOr, jsMul, JSNum.truthy, hl0, hsw]
    · simp [setDocumentScale, jsDiv, jsOr, jsMul, JSNum.truthy, hl0, hsw]
  · intro ht hsh
    simp [setDocumentScale, jsDiv, jsOr, jsMul, JSNum.truthy, hsh,
      div_ne_zero ht hsh]
  · intro ht0
    by_cases hsh : st.height - st.viewport.height = 0
    · simp [setDocumentScale, jsDiv, jsOr, jsMul, JSNum.truthy, ht0, hsh]
    · simp [setDocumentScale, jsDiv, jsOr, jsMul, JSNum.truthy, ht0, hsh]
  · intro hlpos hsw0 htw
    simp [setDocumentScale, jsDiv, jsOr, jsMul, JSNum.truthy, hsw0, hlpos,
      htw, not_lt.mpr (le_of_lt hlpos)]

/-- C3 witness: the amended theorem applied to the scrolled state, where
left = 10 and the scroll range 100 are nonzero. -/
theorem rescale_ratio_amended_witness :
    (setDocumentScale exampleZoomStateScrolled 250 250 1 1 none).panX
      = JSNum.num ((250 - exampleZoomStateScrolled.viewport.width) *
          (exampleZoomStateScrolled.viewport.left /
            (exampleZoomStateScrolled.width -
              exampleZoomStateScrolled.viewport.width))) :=
  (rescale_ratio_amended exampleZoomStateScrolled 250 250 1 1 none).1
    (by norm_num [exampleZoomStateScrolled])
    (by norm_num [exampleZoomStateScrolled])

/-- Mouse dispatch loop equals the claim-side visit order: the children
before the first handling child, then the first handling child. -/
theorem mouseDispatch_eq_spec (cs : List (ℕ × Child)) (x y : ℚ) :
    mouseDispatch cs x y
      = (specVisitsUntilHandled cs x y).map (fun c => (c.1, x, y)) := by
  induction cs with
  | nil => simp [mouseDispatch, specVisitsUntilHandled]
  | cons c rest ih =>
      by_cases h : c.2.handler x y
      · simp [mouseDispatch, specVisitsUntilHandled, notHandled, h]
      · simp [mouseDispatch, specVisitsUntilHandled, notHandled, h] at ih ⊢
        exact ih

/-- C7: for every mouse event the translated document coordinate is
(eventOffset + viewportOffset) / zoomFactor on each axis, dispatch
visits the children in reverse z-order (topmost first) stopping at the
first child whose handler reports the event handled, and with zero
viewport offset doubling the zoom factor halves the translated
coordinate. -/
theorem mouse_translation_dispatch (cv : InteractionCanvas) (e : InputEvent)
    (hk : e.kind = EventKind.mousedown ∨ e.kind = EventKind.mousemove ∨
      e.kind = EventKind.mouseup) :
    (handleInteraction cv e).dispatched
      = (specVisitsUntilHandled cv.children.enum.reverse
          (translateMouseX cv e) (translateMouseY cv e)).map
          (fun c => (c.1, translateMouseX cv e, translateMouseY cv e)) ∧
    (cv.viewport.left = 0 →
      translateMouseX { cv with zoomFactor := 2 * cv.zoomFactor } e
        = translateMouseX cv e / 2) ∧
    (cv.viewport.top = 0 →
      translateMouseY { cv with zoomFactor := 2 * cv.zoomFactor } e
        = translateMouseY cv e / 2) := by
  refine ⟨?_, ?_, ?_⟩
  · by_cases hlen : cv.children.length = 0
    · have hnil : cv.children = [] := List.length_eq_zero.mp hlen
      simp [handleInteraction, hlen, hnil, specVisitsUntilHandled]
    · rcases hk with h | h | h <;>
        simp [handleInteraction, hlen, h, mouseDispatch_eq_spec]
  · intro h0
    simp [translateMouseX, h0, div_div, mul_comm]
  · intro h0
    simp [translateMouseY, h0, div_div, mul_comm]

/-- C7 witness: the theorem applied to the concrete two-child canvas and
the mousedown event at offset (12, 34). -/
theorem mouse_translation_dispatch_witness :
    (handleInteraction exampleInteractionCanvas exampleMouseEvent).dispatched
      = (specVisitsUntilHandled exampleInteractionCanvas.children.enum.reverse
          (translateMouseX exampleInteractionCanvas exampleMouseEvent)
          (translateMouseY exampleInteractionCanvas exampleMouseEvent)).map
          (fun c => (c.1,
            translateMouseX exampleInteractionCanvas exampleMouseEvent,
            translateMouseY exampleInteractionCanvas exampleMouseEvent)) :=
  (mouse_translation_dispatch exampleInteractionCanvas exampleMouseEvent
    (Or.inl rfl)).1

/-- C8 counterexample: for the two-finger touch event with touches at
(10, 20) and (50, 60) on the unscrolled unit-zoom canvas, every
dispatched call carries the translation of the FIRST touch only — the
second touch's page coordinate translates to (50, 60), yet no dispatched
call carries it, refuting that each touch's page coordinate is
translated. -/
theorem touch_first_only_counterexample :
    (handleInteraction exampleInteractionCanvas exampleTouchEvent).dispatched
      = [(1, 10, 20), (0, 10, 20)] ∧
    ((50 - (exampleInteractionCanvas.coordinate.1 -
        exampleInteractionCanvas.viewport.left)) /
          exampleInteractionCanvas.zoomFactor,
     (60 - (exampleInteractionCanvas.coordinate.2 -
        exampleInteractionCanvas.viewport.top)) /
          exampleInteractionCanvas.zoomFactor) = ((50 : ℚ), (60 : ℚ)) ∧
    (∀ d ∈ (handleInteraction exampleInteractionCanvas
        exampleTouchEvent).dispatched, d.2 ≠ ((50 : ℚ), (60 : ℚ))) := by
  have hd : (handleInteraction exampleInteractionCanvas
      exampleTouchEvent).dispatched = [(1, 10, 20), (0, 10, 20)] := by
    norm_num [handleInteraction, exampleInteractionCanvas, exampleTouchEvent,
      List.enum, List.enumFrom]
  refine ⟨hd, by norm_num [exampleInteractionCanvas], ?_⟩
  rw [hd]
  intro d hdm
  simp only [List.mem_cons, List.not_mem_nil, or_false] at hdm
  rcases hdm with h | h <;> rw [h] <;> norm_num [Prod.ext_iff]

/-- C8 amended: for every touch event with a nonempty touches list, only
the FIRST touch's page coordinate has the canvas screen offset (adjusted
by the viewport offset) subtracted and is divided by zoomFactor, and the
resulting single coordinate pair is dispatched to all children in
reverse z-order without stopping at a handling child. -/
theorem touch_translation_dispatch (cv : InteractionCanvas) (e : InputEvent)
    (hk : e.kind = EventKind.touch) (t0 : ℚ × ℚ) (ts : List (ℚ × ℚ))
    (ht : e.touches = t0 :: ts) :
    (handleInteraction cv e).dispatched
      = cv.children.enum.reverse.map (fun c =>
          (c.1,
           (t0.1 - (cv.coordinate.1 - cv.viewport.left)) / cv.zoomFactor,
           (t0.2 - (cv.coordinate.2 - cv.viewport.top)) / cv.zoomFactor)) := by
  by_cases hlen : cv.children.length = 0
  · have hnil : cv.children = [] := List.length_eq_zero.mp hlen
    simp [handleInteraction, hlen, hnil]
  · simp [handleInteraction, hlen, hk, ht]

/-- C8 witness: the amended theorem applied to the concrete two-finger
touch event. -/
theorem touch_translation_dispatch_witness :
    (handleInteraction exampleInteractionCanvas exampleTouchEvent).dispatched
      = exampleInteractionCanvas.children.enum.reverse.map (fun c =>
          (c.1,
           ((10 : ℚ) - (exampleInteractionCanvas.coordinate.1 -
              exampleInteractionCanvas.viewport.left)) /
                exampleInteractionCanvas.zoomFactor,
           ((20 : ℚ) - (exampleInteractionCanvas.coordinate.2 -
              exampleInteractionCanvas.viewport.top)) /
                exampleInteractionCanvas.zoomFactor)) :=
  touch_translation_dispatch exampleInteractionCanvas exampleTouchEvent rfl
    (10, 20) [(50, 60)] rfl
